import Mathlib

/-!
Verification of the image generator service (src/app.py).

The service has two HTTP endpoints:
  * POST /generate-image : builds an enhanced prompt, calls an external
    image API with a fixed parameter set, streams the body to a uniquely
    named local file and returns a reference to it;
  * GET /image/filename : serves a previously stored file.

The embedding below models bytes as lists of naturals, the storage
directory as an association list from filename to contents, and the
external HTTP call as an oracle function from the outbound request
(url and query parameters) to an upstream result.
-/

/-- Byte strings are lists of naturals (each intended below 256). -/
abbrev Bytes := List Nat

/-- The generated-files directory: filenames paired with file contents. -/
abbrev Fs := List (String × Bytes)

/-- Look a filename up in the directory (os.path.exists / reading the file). -/
def fsLookup (fs : Fs) (name : String) : Option Bytes :=
  (fs.find? fun p => p.1 == name).map fun p => p.2

/-- Write a file: overwrite the first entry with this name, or create it
(open(path, "wb") followed by writing the contents). -/
def fsWrite (fs : Fs) (name : String) (b : Bytes) : Fs :=
  match fs with
  | [] => [(name, b)]
  | p :: rest => if p.1 == name then (name, b) :: rest else p :: fsWrite rest name b

/-- os.listdir of the generated folder. -/
def fsListdir (fs : Fs) : List String := fs.map fun p => p.1

/-- UTF-8 encoding of one character, as urllib sees strings (bytes). -/
def utf8Bytes (c : Char) : List Nat :=
  let n := c.toNat
  if n < 128 then [n]
  else if n < 2048 then [192 + n / 64, 128 + n % 64]
  else if n < 65536 then [224 + n / 4096, 128 + n / 64 % 64, 128 + n % 64]
  else [240 + n / 262144, 128 + n / 4096 % 64, 128 + n / 64 % 64, 128 + n % 64]

/-- UTF-8 bytes of a string. -/
def strBytes (s : String) : List Nat :=
  (s.toList.map utf8Bytes).flatten

/-- Characters urllib.parse.quote leaves unescaped with its default
safe set: unreserved characters plus the slash. -/
def isQuoteSafe (b : Nat) : Bool :=
  (65 ≤ b && b ≤ 90) || (97 ≤ b && b ≤ 122) || (48 ≤ b && b ≤ 57) ||
    b == 45 || b == 46 || b == 95 || b == 126 || b == 47

/-- Upper-case hexadecimal digit for a nibble. -/
def hexUpper (m : Nat) : Char :=
  if m < 10 then Char.ofNat (48 + m) else Char.ofNat (55 + m)

/-- Percent-encode a single byte the way urllib.parse.quote does. -/
def quoteByte (b : Nat) : String :=
  if isQuoteSafe b then String.singleton (Char.ofNat b)
  else "%" ++ String.singleton (hexUpper (b / 16)) ++ String.singleton (hexUpper (b % 16))

/-- Percent-encode a byte string. -/
def quoteBytes : List Nat → String
  | [] => ""
  | b :: rest => quoteByte b ++ quoteBytes rest

/-- urllib.parse.quote with the default safe characters. -/
def quote (s : String) : String := quoteBytes (strBytes s)

/-- Lower-case hexadecimal digit for a nibble. -/
def hexLower (m : Nat) : Char :=
  if m < 10 then Char.ofNat (48 + m) else Char.ofNat (87 + m)

/-- uuid.UUID with version 4: take the 128 random bits, force the
variant field (bits 62-63) to 10 and the version field (bits 76-79)
to 0100. -/
def uuid4Int (r : Nat) : Nat :=
  let n := r % 2 ^ 128
  let n1 := n - n / 2 ^ 76 % 16 * 2 ^ 76 + 4 * 2 ^ 76
  n1 - n1 / 2 ^ 62 % 4 * 2 ^ 62 + 2 * 2 ^ 62

/-- The 32 hex characters of a 128-bit integer, most significant first
(Python "%032x" formatting). -/
def hex32Chars (n : Nat) : List Char :=
  (List.range 32).map fun i => hexLower (n / 2 ^ (4 * (31 - i)) % 16)

/-- str(uuid.uuid4()) for randomness r: 32 lower-case hex characters in
groups of 8-4-4-4-12 separated by hyphens. -/
def uuidStr (r : Nat) : String :=
  let h := hex32Chars (uuid4Int r)
  String.mk (h.take 8 ++ Char.ofNat 45 ::
    ((h.drop 8).take 4 ++ Char.ofNat 45 ::
      ((h.drop 12).take 4 ++ Char.ofNat 45 ::
        ((h.drop 16).take 4 ++ Char.ofNat 45 :: h.drop 20))))

/-- A lower-case hexadecimal character. -/
def isHexLowerChar (c : Char) : Bool :=
  (48 ≤ c.toNat && c.toNat ≤ 57) || (97 ≤ c.toNat && c.toNat ≤ 102)

/-- Canonical textual UUID: 36 characters, hyphens exactly at positions
8, 13, 18 and 23, lower-case hex everywhere else. -/
def isCanonicalUuid (s : String) : Bool :=
  let l := s.toList
  l.length == 36 &&
  (l.take 8).all isHexLowerChar && l[8]? == some (Char.ofNat 45) &&
  ((l.drop 9).take 4).all isHexLowerChar && l[13]? == some (Char.ofNat 45) &&
  ((l.drop 14).take 4).all isHexLowerChar && l[18]? == some (Char.ofNat 45) &&
  ((l.drop 19).take 4).all isHexLowerChar && l[23]? == some (Char.ofNat 45) &&
  (l.drop 24).all isHexLowerChar

/-- str.endswith of Python, on the underlying character lists. -/
def endswith (s suf : String) : Bool := suf.toList.isSuffixOf s.toList

/-- A query-parameter value in the params dict passed to requests.get. -/
inductive PVal where
  | pstr (s : String)
  | pint (n : Int)
  | pbool (b : Bool)
  | pnone
deriving DecidableEq

/-- An optional boolean argument as a parameter value (None or a bool). -/
def pOptBool : Option Bool → PVal
  | none => PVal.pnone
  | some b => PVal.pbool b

/-- Result of the outbound requests.get call: a transport-level failure
(requests raising before any status is available), or a response with a
status code and a body. -/
inductive UpstreamResult where
  | transportError (msg : String)
  | response (status : Nat) (body : Bytes)
deriving DecidableEq

/-- The external API as an oracle: what one GET to a url with query
parameters returns. -/
abbrev Api := String → List (String × PVal) → UpstreamResult

def generated_folder : String := "generated"

/-- The fixed suffix of quality clauses appended to every user prompt. -/
def qualitySuffix : String :=
  ", high resolution, highly detailed, sharp focus, professional photography, cinematic lighting, 8k uhd, ray tracing, ambient lighting"

/-- enhanced_prompt as built by the f-string in generate_image. -/
def enhanced_prompt (prompt : String) : String :=
  (prompt ++ ", ") ++
    "high resolution, highly detailed, sharp focus, " ++
    "professional photography, cinematic lighting, " ++
    "8k uhd, ray tracing, ambient lighting"

/-- negative_prompt: the fixed string of undesired qualities. -/
def negative_prompt : String :=
  "blurry, low quality, low resolution, " ++
    "watermark, signature, oversaturated, " ++
    "distorted, deformed, pixelated"

def base_url : String := "https://image.pollinations.ai/prompt"

/-- The outbound url: base url, a slash, and the percent-encoded
enhanced prompt. -/
def buildUrl (prompt : String) : String :=
  base_url ++ "/" ++ quote (enhanced_prompt prompt)

/-- The params dict passed to requests.get, in source order. -/
def buildParams (width height : Int) (model : String) (steps cfg_scale : Int)
    (enhance : Option Bool) : List (String × PVal) :=
  [("width", PVal.pint width),
   ("height", PVal.pint height),
   ("model", PVal.pstr model),
   ("steps", PVal.pint steps),
   ("cfg_scale", PVal.pint cfg_scale),
   ("sampler", PVal.pstr "DPM++ SDE Karras"),
   ("enhance", pOptBool enhance),
   ("nologo", PVal.pbool true),
   ("negative_prompt", PVal.pstr negative_prompt),
   ("upscale", PVal.pbool true),
   ("upscale_amount", PVal.pstr "2")]

/-- response.iter_content(chunk_size=8192): the body split into chunks
of at most 8192 bytes. -/
def iter_content (b : Bytes) : List Bytes :=
  if h : b = [] then []
  else b.take 8192 :: iter_content (b.drop 8192)
termination_by b.length
decreasing_by
  simp only [List.length_drop]
  have : b.length ≠ 0 := fun hl => h (List.eq_nil_of_length_eq_zero hl)
  omega

/-- The write loop: each chunk appended in turn to the file contents. -/
def writeLoop (chunks : List Bytes) : Bytes :=
  chunks.foldl (fun acc c => acc ++ c) []

/-- What generate_image produced: the returned value (the filename or
None), the directory afterwards, and the outbound request it made. -/
structure GenResult where
  result : Option String
  fs : Fs
  url : String
  params : List (String × PVal)
deriving DecidableEq

/-- generate_image of src/app.py. Besides the Python arguments it takes
the external API oracle, the 128 random bits consumed by uuid.uuid4,
and the directory state. seed, nologo, priv and safe are accepted but,
as in the source, never used (the nologo query parameter is the literal
True). raise_for_status turns any status of 400 or above into a caught
RequestException; only a 200 status reaches the writing branch. -/
def generate_image (api : Api) (r : Nat) (fs : Fs)
    (prompt : String) (model : String) (seed : Option Int)
    (width height steps cfg_scale : Int)
    (nologo priv enhance safe : Option Bool) : GenResult :=
  let unique_filename := uuidStr r ++ ".jpg"
  let url := buildUrl prompt
  let params := buildParams width height model steps cfg_scale enhance
  match api url params with
  | UpstreamResult.transportError _ => ⟨none, fs, url, params⟩
  | UpstreamResult.response status body =>
    if 400 ≤ status then ⟨none, fs, url, params⟩
    else if status == 200 then
      let contents := writeLoop (iter_content body)
      ⟨some unique_filename, fsWrite fs unique_filename contents, url, params⟩
    else ⟨none, fs, url, params⟩

/-- A response of the generation endpoint: the success JSON body (its
single file_path field) or an HTTPException. -/
inductive GenResponse where
  | ok (file_path : String)
  | httpError (status : Nat) (detail : String)
deriving DecidableEq

/-- Python truthiness of an Optional string. -/
def pyTruthy : Option String → Bool
  | none => false
  | some s => !(s == "")

/-- The request body of POST /generate-image. -/
structure ImageRequest where
  prompt : String
  width : Int
  height : Int
  enhance : Bool
  steps : Int
deriving DecidableEq

/-- POST /generate-image: call generate_image with the request fields
(model, seed, cfg_scale and priv at their defaults, nologo and safe set
to True) and map the outcome to a response. -/
def generate_image_endpoint (api : Api) (r : Nat) (fs : Fs)
    (request : ImageRequest) : GenResponse × Fs :=
  let g := generate_image api r fs request.prompt "flux-pro" none
    request.width request.height request.steps 9
    (some true) none (some request.enhance) (some true)
  if pyTruthy g.result then
    (GenResponse.ok ("/image/" ++ g.result.getD ""), g.fs)
  else
    (GenResponse.httpError 500 "Image generation failed", g.fs)

/-- A response of the file-serving endpoint: a FileResponse (status 200,
media type, download filename, body bytes) or an HTTPException. -/
inductive ServeResponse where
  | fileResp (status : Nat) (media_type : String) (filename : String) (contents : Bytes)
  | httpError (status : Nat) (detail : String)
deriving DecidableEq

/-- The filename normalization of serve_image: append .jpg when the
requested name does not already end with it. -/
def normalizeName (filename : String) : String :=
  if endswith filename ".jpg" then filename else filename ++ ".jpg"

/-- A single quote character, as Python repr renders list elements. -/
def squote : String := String.singleton (Char.ofNat 39)

/-- Python repr of a list of strings, as an f-string interpolates
os.listdir output. -/
def pyStrListRepr (l : List String) : String :=
  "[" ++ String.intercalate ", " (l.map fun s => squote ++ s ++ squote) ++ "]"

/-- GET /image/filename of src/app.py. ioErr is the oracle for an
exception raised while building the FileResponse for an existing file
(the caught local I/O failure): none means serving succeeds. The
directory is threaded through unchanged: the handler performs no write.
-/
def serve_image (fs : Fs) (ioErr : Option String) (filename : String) :
    ServeResponse × Fs :=
  let filename := normalizeName filename
  match fsLookup fs filename with
  | none =>
    (ServeResponse.httpError 404
      ("Image not found. Available files: " ++ pyStrListRepr (fsListdir fs)), fs)
  | some contents =>
    match ioErr with
    | some e => (ServeResponse.httpError 500 ("Error serving file: " ++ e), fs)
    | none => (ServeResponse.fileResp 200 "image/jpeg" filename contents, fs)

/-! ### Helper lemmas -/

theorem fsLookup_fsWrite (fs : Fs) (name : String) (b : Bytes) :
    fsLookup (fsWrite fs name b) name = some b := by
  induction fs with
  | nil => simp [fsWrite, fsLookup]
  | cons p rest ih =>
    simp only [fsWrite]
    split
    · simp [fsLookup]
    · next hne =>
      rw [Bool.not_eq_true] at hne
      simp only [fsLookup, List.find?, hne]
      exact ih

theorem endswith_append (s t : String) : endswith (s ++ t) t = true := by
  simp only [endswith, String.toList, String.data_append,
    List.isSuffixOf_iff_suffix]
  exact List.suffix_append _ _

theorem foldl_append_eq (l : List Bytes) (init : Bytes) :
    l.foldl (fun acc c => acc ++ c) init = init ++ l.flatten := by
  induction l generalizing init with
  | nil => simp
  | cons c rest ih => simp [List.foldl, ih]

theorem writeLoop_eq (l : List Bytes) : writeLoop l = l.flatten := by
  simp [writeLoop, foldl_append_eq]

theorem iter_content_flatten_aux (n : Nat) :
    ∀ b : Bytes, b.length ≤ n → (iter_content b).flatten = b := by
  induction n with
  | zero =>
    intro b hb
    have hbe : b = [] := List.eq_nil_of_length_eq_zero (Nat.le_zero.mp hb)
    subst hbe
    simp [iter_content]
  | succ n ih =>
    intro b hb
    rw [iter_content]
    by_cases h : b = []
    · simp [h]
    · have hlen : b.length ≠ 0 := fun hl => h (List.eq_nil_of_length_eq_zero hl)
      simp only [h, dite_false, List.flatten_cons]
      rw [ih (b.drop 8192) (by simp only [List.length_drop]; omega)]
      exact List.take_append_drop _ _

theorem iter_content_flatten (b : Bytes) : (iter_content b).flatten = b :=
  iter_content_flatten_aux b.length b Nat.le.refl

theorem quoteBytes_append (l1 l2 : List Nat) :
    quoteBytes (l1 ++ l2) = quoteBytes l1 ++ quoteBytes l2 := by
  induction l1 with
  | nil => simp [quoteBytes]
  | cons b rest ih => simp [quoteBytes, ih, String.append_assoc]

theorem strBytes_append (a b : String) :
    strBytes (a ++ b) = strBytes a ++ strBytes b := by
  simp [strBytes, String.toList, String.data_append]

theorem quote_append (a b : String) : quote (a ++ b) = quote a ++ quote b := by
  simp [quote, strBytes_append, quoteBytes_append]

theorem enhanced_prompt_eq (p : String) :
    enhanced_prompt p = p ++ qualitySuffix := by
  simp only [enhanced_prompt, qualitySuffix, String.append_assoc]
  congr 1

set_option maxRecDepth 20000 in
theorem quote_qualitySuffix_length_pos : 0 < (quote qualitySuffix).length := by
  decide

theorem hexLower_hex : ∀ m : Nat, m < 16 → isHexLowerChar (hexLower m) = true := by
  decide

theorem hex32Chars_length (n : Nat) : (hex32Chars n).length = 32 := by
  simp [hex32Chars]

theorem hex32Chars_all_hex (n : Nat) :
    ∀ c ∈ hex32Chars n, isHexLowerChar c = true := by
  intro c hc
  simp only [hex32Chars, List.mem_map, List.mem_range] at hc
  obtain ⟨i, _, rfl⟩ := hc
  exact hexLower_hex _ (Nat.mod_lt _ (by decide))

theorem canonical_of_hex32 (h : List Char) (hlen : h.length = 32)
    (hhex : ∀ c ∈ h, isHexLowerChar c = true) :
    isCanonicalUuid (String.mk (h.take 8 ++ Char.ofNat 45 ::
      ((h.drop 8).take 4 ++ Char.ofNat 45 ::
        ((h.drop 12).take 4 ++ Char.ofNat 45 ::
          ((h.drop 16).take 4 ++ Char.ofNat 45 :: h.drop 20))))) = true := by
  have hg1 : (h.take 8).length = 8 := by simp [hlen]
  have hg2 : ((h.drop 8).take 4).length = 4 := by simp [hlen]
  have hg3 : ((h.drop 12).take 4).length = 4 := by simp [hlen]
  have hg4 : ((h.drop 16).take 4).length = 4 := by simp [hlen]
  have hg5 : (h.drop 20).length = 12 := by simp [hlen]
  set R3 : List Char := (h.drop 16).take 4 ++ Char.ofNat 45 :: h.drop 20 with hR3
  set R2 : List Char := (h.drop 12).take 4 ++ Char.ofNat 45 :: R3 with hR2
  set R1 : List Char := (h.drop 8).take 4 ++ Char.ofNat 45 :: R2 with hR1
  set L : List Char := h.take 8 ++ Char.ofNat 45 :: R1 with hL
  have hd8 : L.drop 8 = Char.ofNat 45 :: R1 := List.drop_left' hg1
  have ht8 : L.take 8 = h.take 8 := List.take_left' hg1
  have hd9 : L.drop 9 = R1 := by
    rw [show (9 : Nat) = 8 + 1 from rfl, ← List.drop_drop, hd8, List.drop_succ_cons,
      List.drop_zero]
  have hd13 : L.drop 13 = Char.ofNat 45 :: R2 := by
    rw [show (13 : Nat) = 9 + 4 from rfl, ← List.drop_drop, hd9, hR1,
      List.drop_left' hg2]
  have hd14 : L.drop 14 = R2 := by
    rw [show (14 : Nat) = 13 + 1 from rfl, ← List.drop_drop, hd13,
      List.drop_succ_cons, List.drop_zero]
  have hd18 : L.drop 18 = Char.ofNat 45 :: R3 := by
    rw [show (18 : Nat) = 14 + 4 from rfl, ← List.drop_drop, hd14, hR2,
      List.drop_left' hg3]
  have hd19 : L.drop 19 = R3 := by
    rw [show (19 : Nat) = 18 + 1 from rfl, ← List.drop_drop, hd18,
      List.drop_succ_cons, List.drop_zero]
  have hd23 : L.drop 23 = Char.ofNat 45 :: h.drop 20 := by
    rw [show (23 : Nat) = 19 + 4 from rfl, ← List.drop_drop, hd19, hR3,
      List.drop_left' hg4]
  have hd24 : L.drop 24 = h.drop 20 := by
    rw [show (24 : Nat) = 23 + 1 from rfl, ← List.drop_drop, hd23,
      List.drop_succ_cons, List.drop_zero]
  have hc8 : L[8]? = some (Char.ofNat 45) := by
    have hgd := List.getElem?_drop L 8 0
    rw [hd8] at hgd
    simpa using hgd.symm
  have hc13 : L[13]? = some (Char.ofNat 45) := by
    have hgd := List.getElem?_drop L 13 0
    rw [hd13] at hgd
    simpa using hgd.symm
  have hc18 : L[18]? = some (Char.ofNat 45) := by
    have hgd := List.getElem?_drop L 18 0
    rw [hd18] at hgd
    simpa using hgd.symm
  have hc23 : L[23]? = some (Char.ofNat 45) := by
    have hgd := List.getElem?_drop L 23 0
    rw [hd23] at hgd
    simpa using hgd.symm
  have hL36 : L.length = 36 := by
    rw [hL, hR1, hR2, hR3]
    simp only [List.length_append, List.length_cons, hg1, hg2, hg3, hg4, hg5]
  have hhexSub : ∀ (l : List Char), l ⊆ h → l.all isHexLowerChar = true := by
    intro l hsub
    rw [List.all_eq_true]
    intro c hc
    exact hhex c (hsub hc)
  show isCanonicalUuid (String.mk L) = true
  have htl : (String.mk L).toList = L := rfl
  simp only [isCanonicalUuid, htl, Bool.and_eq_true, beq_iff_eq]
  refine ⟨⟨⟨⟨⟨⟨⟨⟨⟨?_, ?_⟩, ?_⟩, ?_⟩, ?_⟩, ?_⟩, ?_⟩, ?_⟩, ?_⟩, ?_⟩
  · exact hL36
  · rw [ht8]
    exact hhexSub _ (List.take_subset _ _)
  · exact hc8
  · rw [hd9, hR1, List.take_left' hg2]
    exact hhexSub _ (fun c hc => List.drop_subset _ _ (List.take_subset _ _ hc))
  · exact hc13
  · rw [hd14, hR2, List.take_left' hg3]
    exact hhexSub _ (fun c hc => List.drop_subset _ _ (List.take_subset _ _ hc))
  · exact hc18
  · rw [hd19, hR3, List.take_left' hg4]
    exact hhexSub _ (fun c hc => List.drop_subset _ _ (List.take_subset _ _ hc))
  · exact hc23
  · rw [hd24]
    exact hhexSub _ (List.drop_subset _ _)

theorem isCanonicalUuid_uuidStr (r : Nat) :
    isCanonicalUuid (uuidStr r) = true :=
  canonical_of_hex32 (hex32Chars (uuid4Int r)) (hex32Chars_length _)
    (hex32Chars_all_hex _)

theorem uuidStr_length (r : Nat) : (uuidStr r).length = 36 := by
  have hlen := hex32Chars_length (uuid4Int r)
  simp only [uuidStr, String.length, List.length_append, List.length_cons,
    List.length_take, List.length_drop, hlen]
  omega

theorem uuid_filename_ne_empty (r : Nat) : uuidStr r ++ ".jpg" ≠ "" := by
  intro hEq
  have := congrArg String.length hEq
  rw [String.length_append, uuidStr_length] at this
  simp [String.length] at this

/-- On a 200 status the fetcher returns the fresh filename and writes the
chunk-streamed body; the chunks reassemble to the body exactly. -/
theorem generate_image_200 (api : Api) (r : Nat) (fs : Fs)
    (prompt model : String) (seed : Option Int)
    (width height steps cfg_scale : Int) (nologo priv enhance safe : Option Bool)
    (body : Bytes)
    (h : api (buildUrl prompt) (buildParams width height model steps cfg_scale enhance)
      = UpstreamResult.response 200 body) :
    generate_image api r fs prompt model seed width height steps cfg_scale
        nologo priv enhance safe
      = ⟨some (uuidStr r ++ ".jpg"), fsWrite fs (uuidStr r ++ ".jpg") body,
         buildUrl prompt, buildParams width height model steps cfg_scale enhance⟩ := by
  simp [generate_image, h, writeLoop_eq, iter_content_flatten]

/-- On a transport error or a non-200 status the fetcher returns None and
leaves the directory untouched. -/
theorem generate_image_fail (api : Api) (r : Nat) (fs : Fs)
    (prompt model : String) (seed : Option Int)
    (width height steps cfg_scale : Int) (nologo priv enhance safe : Option Bool)
    (h : (∃ msg, api (buildUrl prompt)
            (buildParams width height model steps cfg_scale enhance)
          = UpstreamResult.transportError msg) ∨
         (∃ status body, api (buildUrl prompt)
            (buildParams width height model steps cfg_scale enhance)
          = UpstreamResult.response status body ∧ status ≠ 200)) :
    generate_image api r fs prompt model seed width height steps cfg_scale
        nologo priv enhance safe
      = ⟨none, fs, buildUrl prompt,
         buildParams width height model steps cfg_scale enhance⟩ := by
  rcases h with ⟨msg, hapi⟩ | ⟨status, body, hapi, hst⟩
  · simp [generate_image, hapi]
  · by_cases h4 : 400 ≤ status
    · simp [generate_image, hapi, h4]
    · have h2 : (status == 200) = false := by simp [hst]
      simp [generate_image, hapi, h4, h2]

/-- The url recorded by the fetcher is the built url, whatever the
external call returns. -/
theorem generate_image_url (api : Api) (r : Nat) (fs : Fs)
    (prompt model : String) (seed : Option Int)
    (width height steps cfg_scale : Int) (nologo priv enhance safe : Option Bool) :
    (generate_image api r fs prompt model seed width height steps cfg_scale
        nologo priv enhance safe).url = buildUrl prompt := by
  cases happ : api (buildUrl prompt) (buildParams width height model steps cfg_scale enhance) with
  | transportError msg => simp [generate_image, happ]
  | response st body =>
    by_cases h4 : 400 ≤ st
    · simp [generate_image, happ, h4]
    · by_cases h2 : (st == 200) = true <;> simp [generate_image, happ, h4, h2]

/-! ### The claims -/

/-- Claim C1: for every generation request in which the external GET call
succeeds with status 200, generate_image returns a filename such that the
file under that name exists in the storage directory in the state handed
back with the result, and its contents are byte-identical to the full
upstream response body. -/
theorem generation_writes_body (api : Api) (r : Nat) (fs : Fs)
    (prompt model : String) (seed : Option Int)
    (width height steps cfg_scale : Int) (nologo priv enhance safe : Option Bool)
    (body : Bytes)
    (h : api (buildUrl prompt) (buildParams width height model steps cfg_scale enhance)
      = UpstreamResult.response 200 body) :
    (generate_image api r fs prompt model seed width height steps cfg_scale
        nologo priv enhance safe).result = some (uuidStr r ++ ".jpg") ∧
    fsLookup (generate_image api r fs prompt model seed width height steps cfg_scale
        nologo priv enhance safe).fs (uuidStr r ++ ".jpg") = some body := by
  rw [generate_image_200 api r fs prompt model seed width height steps cfg_scale
    nologo priv enhance safe body h]
  exact ⟨rfl, fsLookup_fsWrite fs _ body⟩

/-- Witness for C1 at a concrete request. -/
theorem generation_writes_body_witness :
    (generate_image (fun _ _ => UpstreamResult.response 200 [7, 8, 9]) 0 []
        "a red bicycle" "flux-pro" none 512 512 20 9 (some true) none
        (some true) (some true)).result = some (uuidStr 0 ++ ".jpg") ∧
    fsLookup (generate_image (fun _ _ => UpstreamResult.response 200 [7, 8, 9]) 0 []
        "a red bicycle" "flux-pro" none 512 512 20 9 (some true) none
        (some true) (some true)).fs (uuidStr 0 ++ ".jpg") = some [7, 8, 9] :=
  generation_writes_body (fun _ _ => UpstreamResult.response 200 [7, 8, 9]) 0 []
    "a red bicycle" "flux-pro" none 512 512 20 9 (some true) none
    (some true) (some true) [7, 8, 9] rfl

/-- Claim C2: when the external call fails at transport level or returns a
non-success status, the generation endpoint responds with status 500 and
the storage directory is unchanged. -/
theorem generation_failure_500 (api : Api) (r : Nat) (fs : Fs)
    (request : ImageRequest)
    (h : (∃ msg, api (buildUrl request.prompt)
            (buildParams request.width request.height "flux-pro" request.steps 9
              (some request.enhance))
          = UpstreamResult.transportError msg) ∨
         (∃ status body, api (buildUrl request.prompt)
            (buildParams request.width request.height "flux-pro" request.steps 9
              (some request.enhance))
          = UpstreamResult.response status body ∧ status ≠ 200)) :
    generate_image_endpoint api r fs request
      = (GenResponse.httpError 500 "Image generation failed", fs) := by
  simp only [generate_image_endpoint,
    generate_image_fail api r fs request.prompt "flux-pro" none request.width
      request.height request.steps 9 (some true) none (some request.enhance)
      (some true) h]
  simp [pyTruthy]

/-- Witness for C2 at a concrete request with a transport failure. -/
theorem generation_failure_500_witness :
    generate_image_endpoint (fun _ _ => UpstreamResult.transportError "timeout") 3
        [("old.jpg", [1])] ⟨"a red bicycle", 512, 512, true, 20⟩
      = (GenResponse.httpError 500 "Image generation failed", [("old.jpg", [1])]) :=
  generation_failure_500 (fun _ _ => UpstreamResult.transportError "timeout") 3
    [("old.jpg", [1])] ⟨"a red bicycle", 512, 512, true, 20⟩
    (Or.inl ⟨"timeout", rfl⟩)

/-- Claim C3: round-trip. A filename produced by a successful generation
request, passed unmodified to the retrieval endpoint against the
directory state the generation left behind, yields a 200 FileResponse
with content-type image/jpeg whose bytes are the stored upstream body. -/
theorem generation_roundtrip (api : Api) (r : Nat) (fs : Fs)
    (request : ImageRequest) (body : Bytes)
    (h : api (buildUrl request.prompt)
          (buildParams request.width request.height "flux-pro" request.steps 9
            (some request.enhance))
        = UpstreamResult.response 200 body) :
    (generate_image_endpoint api r fs request).1
      = GenResponse.ok ("/image/" ++ (uuidStr r ++ ".jpg")) ∧
    (serve_image (generate_image_endpoint api r fs request).2 none
        (uuidStr r ++ ".jpg")).1
      = ServeResponse.fileResp 200 "image/jpeg" (uuidStr r ++ ".jpg") body := by
  have hne : ((uuidStr r ++ ".jpg") == "") = false :=
    beq_eq_false_iff_ne.mpr (uuid_filename_ne_empty r)
  have hend : endswith (uuidStr r ++ ".jpg") ".jpg" = true := endswith_append _ _
  have hgen := generate_image_200 api r fs request.prompt "flux-pro" none
    request.width request.height request.steps 9 (some true) none
    (some request.enhance) (some true) body h
  constructor
  · simp [generate_image_endpoint, hgen, pyTruthy, hne]
  · have hfs : (generate_image_endpoint api r fs request).2
        = fsWrite fs (uuidStr r ++ ".jpg") body := by
      simp [generate_image_endpoint, hgen, pyTruthy, hne]
    rw [hfs]
    simp [serve_image, normalizeName, hend, fsLookup_fsWrite]

/-- Witness for C3 at a concrete request. -/
theorem generation_roundtrip_witness :
    (generate_image_endpoint (fun _ _ => UpstreamResult.response 200 [5, 6]) 1 []
        ⟨"a red bicycle", 512, 512, true, 20⟩).1
      = GenResponse.ok ("/image/" ++ (uuidStr 1 ++ ".jpg")) ∧
    (serve_image (generate_image_endpoint
          (fun _ _ => UpstreamResult.response 200 [5, 6]) 1 []
          ⟨"a red bicycle", 512, 512, true, 20⟩).2 none (uuidStr 1 ++ ".jpg")).1
      = ServeResponse.fileResp 200 "image/jpeg" (uuidStr 1 ++ ".jpg") [5, 6] :=
  generation_roundtrip (fun _ _ => UpstreamResult.response 200 [5, 6]) 1 []
    ⟨"a red bicycle", 512, 512, true, 20⟩ [5, 6] rfl

/-- Claim C4: the url sent upstream is exactly the base url, a slash, and
the percent-encoding of the derived prompt; the derived prompt is the
user prompt followed by the fixed quality suffix; and the url is never
the one that the raw prompt alone would give. -/
theorem outbound_url_enhanced (api : Api) (r : Nat) (fs : Fs)
    (prompt model : String) (seed : Option Int)
    (width height steps cfg_scale : Int) (nologo priv enhance safe : Option Bool) :
    (generate_image api r fs prompt model seed width height steps cfg_scale
        nologo priv enhance safe).url
      = base_url ++ "/" ++ quote (enhanced_prompt prompt) ∧
    enhanced_prompt prompt = prompt ++ qualitySuffix ∧
    (generate_image api r fs prompt model seed width height steps cfg_scale
        nologo priv enhance safe).url
      ≠ base_url ++ "/" ++ quote prompt := by
  rw [generate_image_url api r fs prompt model seed width height steps cfg_scale
    nologo priv enhance safe]
  refine ⟨rfl, enhanced_prompt_eq prompt, ?_⟩
  intro hEq
  have hlen := congrArg String.length hEq
  rw [buildUrl, enhanced_prompt_eq, quote_append] at hlen
  simp only [String.length_append] at hlen
  have hpos := quote_qualitySuffix_length_pos
  omega

/-- Claim C5: whenever the generation endpoint answers with its success
body, that body's file_path is /image/ followed by uuid.jpg, where the
uuid part is in canonical UUID format. -/
theorem success_body_uuid_format (api : Api) (r : Nat) (fs : Fs)
    (request : ImageRequest) (s : String)
    (h : (generate_image_endpoint api r fs request).1 = GenResponse.ok s) :
    s = "/image/" ++ (uuidStr r ++ ".jpg") ∧
    isCanonicalUuid (uuidStr r) = true := by
  refine ⟨?_, isCanonicalUuid_uuidStr r⟩
  cases happ : api (buildUrl request.prompt)
      (buildParams request.width request.height "flux-pro" request.steps 9
        (some request.enhance)) with
  | transportError msg =>
    have hgen := generate_image_fail api r fs request.prompt "flux-pro" none
      request.width request.height request.steps 9 (some true) none
      (some request.enhance) (some true) (Or.inl ⟨msg, happ⟩)
    simp [generate_image_endpoint, hgen, pyTruthy] at h
  | response st body =>
    by_cases h200 : st = 200
    · subst h200
      have hgen := generate_image_200 api r fs request.prompt "flux-pro" none
        request.width request.height request.steps 9 (some true) none
        (some request.enhance) (some true) body happ
      have hne : ((uuidStr r ++ ".jpg") == "") = false :=
        beq_eq_false_iff_ne.mpr (uuid_filename_ne_empty r)
      simp [generate_image_endpoint, hgen, pyTruthy, hne] at h
      exact h.symm
    · have hgen := generate_image_fail api r fs request.prompt "flux-pro" none
        request.width request.height request.steps 9 (some true) none
        (some request.enhance) (some true) (Or.inr ⟨st, body, happ, h200⟩)
      simp [generate_image_endpoint, hgen, pyTruthy] at h

/-- The success response of the endpoint at the concrete C5 witness
request. -/
theorem c5_witness_success :
    (generate_image_endpoint (fun _ _ => UpstreamResult.response 200 [1]) 2 []
        ⟨"a red bicycle", 512, 512, true, 20⟩).1
      = GenResponse.ok ("/image/" ++ (uuidStr 2 ++ ".jpg")) := by
  have hgen := generate_image_200 (fun _ _ => UpstreamResult.response 200 [1]) 2
    [] "a red bicycle" "flux-pro" none 512 512 20 9 (some true) none
    (some true) (some true) [1] rfl
  simp [generate_image_endpoint, hgen, pyTruthy,
    beq_eq_false_iff_ne.mpr (uuid_filename_ne_empty 2)]

/-- Witness for C5 at a concrete request. -/
theorem success_body_uuid_format_witness :
    "/image/" ++ (uuidStr 2 ++ ".jpg") = "/image/" ++ (uuidStr 2 ++ ".jpg") ∧
    isCanonicalUuid (uuidStr 2) = true :=
  success_body_uuid_format (fun _ _ => UpstreamResult.response 200 [1]) 2 []
    ⟨"a red bicycle", 512, 512, true, 20⟩ ("/image/" ++ (uuidStr 2 ++ ".jpg"))
    c5_witness_success

/-- Claim C6: for a requested filename that does not end in .jpg, the
retrieval endpoint behaves exactly as if .jpg had been appended: both
requests are normalized to the same stored name and produce the same
response. -/
theorem serve_extension_normalization (fs : Fs) (ioErr : Option String)
    (f : String) (h : endswith f ".jpg" = false) :
    serve_image fs ioErr f = serve_image fs ioErr (f ++ ".jpg") := by
  have h2 : endswith (f ++ ".jpg") ".jpg" = true := endswith_append _ _
  simp [serve_image, normalizeName, h, h2]

/-- Witness for C6 at a concrete name without extension. -/
theorem serve_extension_normalization_witness :
    endswith "abc" ".jpg" = false ∧
    serve_image [("abc.jpg", [1, 2])] none "abc"
      = serve_image [("abc.jpg", [1, 2])] none ("abc" ++ ".jpg") :=
  ⟨by decide,
   serve_extension_normalization [("abc.jpg", [1, 2])] none "abc" (by decide)⟩

/-- Claim C7: when the normalized name is not present in the storage
directory, the retrieval endpoint answers 404 and its detail message
carries the listing of every stored filename. -/
theorem serve_notfound_lists_files (fs : Fs) (ioErr : Option String)
    (f : String) (h : fsLookup fs (normalizeName f) = none) :
    serve_image fs ioErr f
      = (ServeResponse.httpError 404
          ("Image not found. Available files: " ++ pyStrListRepr (fsListdir fs)),
         fs) := by
  simp [serve_image, h]

/-- Witness for C7 at a concrete missing name. -/
theorem serve_notfound_lists_files_witness :
    fsLookup [("stored.jpg", [1])] (normalizeName "does-not-exist") = none ∧
    serve_image [("stored.jpg", [1])] none "does-not-exist"
      = (ServeResponse.httpError 404
          ("Image not found. Available files: "
            ++ pyStrListRepr (fsListdir [("stored.jpg", [1])])),
         [("stored.jpg", [1])]) :=
  ⟨by decide,
   serve_notfound_lists_files [("stored.jpg", [1])] none "does-not-exist"
     (by decide)⟩

/-- Claim C8: when the requested file exists but a local error is raised
while building the FileResponse, the endpoint answers 500 and the raw
error string is embedded in the response detail. -/
theorem serve_ioerror_500 (fs : Fs) (f e : String) (c : Bytes)
    (h : fsLookup fs (normalizeName f) = some c) :
    serve_image fs (some e) f
      = (ServeResponse.httpError 500 ("Error serving file: " ++ e), fs) := by
  simp [serve_image, h]

/-- Witness for C8 at a concrete file and error. -/
theorem serve_ioerror_500_witness :
    fsLookup [("a.jpg", [1])] (normalizeName "a.jpg") = some [1] ∧
    serve_image [("a.jpg", [1])] (some "disk failure") "a.jpg"
      = (ServeResponse.httpError 500 ("Error serving file: " ++ "disk failure"),
         [("a.jpg", [1])]) :=
  ⟨by decide,
   serve_ioerror_500 [("a.jpg", [1])] "a.jpg" "disk failure" [1] (by decide)⟩

/-- Claim C9: serving is read-only. The directory state after any request
to the retrieval endpoint is the one before it, and two consecutive
requests for the same filename with no intervening change produce the
same response, hence identical bytes. -/
theorem serve_idempotent (fs : Fs) (ioErr : Option String) (f : String) :
    (serve_image fs ioErr f).2 = fs ∧
    (serve_image fs none f).1
      = (serve_image (serve_image fs none f).2 none f).1 := by
  have hro : ∀ io2 : Option String, (serve_image fs io2 f).2 = fs := by
    intro io2
    rcases hl : fsLookup fs (normalizeName f) with _ | c <;> cases io2 <;>
      simp [serve_image, hl]
  exact ⟨hro ioErr, by rw [hro none]⟩

/-- Claim C10: the seed, nologo, private and safe arguments of
generate_image have no effect: two calls differing only in them make the
identical outbound request (url and query parameters) and produce the
same outcome and directory state. -/
theorem unused_arguments_no_effect (api : Api) (r : Nat) (fs : Fs)
    (prompt model : String) (width height steps cfg_scale : Int)
    (enhance : Option Bool) (seed1 seed2 : Option Int)
    (nologo1 nologo2 priv1 priv2 safe1 safe2 : Option Bool) :
    generate_image api r fs prompt model seed1 width height steps cfg_scale
        nologo1 priv1 enhance safe1
      = generate_image api r fs prompt model seed2 width height steps cfg_scale
        nologo2 priv2 enhance safe2 := rfl
